import Mathlib

/-!
Shallow embedding of the RAG orchestration core of the honeycombio/ai-workshop
repository: `src/server/services/ragService.js` (class `RAGService`) and the
provider registry of `src/server/services/llmProvider.js`
(class `LLMProviderService`, staged as `src/unnamed/part_003`).

Modelling conventions:
* JavaScript numbers that carry relevance scores are modelled as rationals (ℚ).
* A possibly-`null`-or-`undefined` string argument is modelled by `JSStr`,
  because JavaScript default parameters replace only `undefined`, never `null`.
* `doc.metadata?.source` is modelled as `Option String` (`none` covers both a
  missing `metadata` object and a missing `source` field).
* The vector store and the chat models are external services: the store is a
  parameter `store : String → Nat → Except String (List ScoredChunk)` giving the
  outcome of `similaritySearchWithScore(question, k)`, and a registered provider
  is its behaviour `LLM := String → Except String String` (prompt to completion).
* Thrown JavaScript errors are `Except.error` carrying the error message.
* The JavaScript object literals returned to callers are additionally rendered
  into an explicit JSON value type (`Json`) so that presence or absence of a
  field is a provable statement.
-/

namespace AIWorkshop

/-- A JavaScript string-or-null-or-undefined value, as passed for an optional
provider name. JS default parameters fire on `undef` only, not on `null`. -/
inductive JSStr where
  | undef : JSStr
  | null : JSStr
  | str (s : String) : JSStr
deriving DecidableEq

/-- JS truthiness of a possibly-missing string value: `undefined`, `null` and
the empty string are falsy, every other string is truthy. -/
def jsTruthyStr : Option String → Bool
  | none => false
  | some s => s != ""

/-- JS `v || d` for a possibly-missing string `v`: the value when truthy,
otherwise the fallback `d`. -/
def jsStrOrElse (v : Option String) (d : String) : String :=
  if jsTruthyStr v then v.getD d else d

/-- JS string interpolation of the provider-name value (template literal
inserts the words `null` / `undefined` for those values). -/
def jsStrToDisplay : JSStr → String
  | .undef => "undefined"
  | .null => "null"
  | .str s => s

/-- JS truthiness of a `JSStr` value. -/
def jsTruthyJSStr : JSStr → Bool
  | .str s => s != ""
  | _ => false

/-- The metadata attached to a stored chunk; only `source` is read by the
RAG service (`doc.metadata?.source`). -/
structure DocMetadata where
  source : Option String
deriving DecidableEq

/-- A LangChain document as returned by the vector store. -/
structure Doc where
  pageContent : String
  metadata : DocMetadata
deriving DecidableEq

/-- One similarity-search result: a `[doc, score]` pair. -/
abbrev ScoredChunk := Doc × ℚ

/-- Pad a natural number below 1000 to exactly three digits. -/
def padZeros3 (n : Nat) : String :=
  if n < 10 then "00" ++ toString n
  else if n < 100 then "0" ++ toString n
  else toString n

/-- JS `score.toFixed(3)`: render the score rounded to three decimal places.
The rounded integer `n` is `⌊1000·q + 1/2⌋`, written on `q.num`/`q.den`
directly (`q.den > 0`, and `Int.ediv` by a positive divisor is floor
division) so that the definition evaluates inside the kernel. -/
def toFixed3 (q : ℚ) : String :=
  let n : Int := (2000 * q.num + q.den).ediv (2 * q.den)
  let a : Nat := n.natAbs
  (if n < 0 then "-" else "") ++ toString (a / 1000) ++ "." ++ padZeros3 (a % 1000)

/-- The fixed sentinel returned by `formatContext` when there are no chunks. -/
def noContextSentinel : String := "No relevant context found in the knowledge base."

/-- The separator `join`ed between chunk blocks in `formatContext`. -/
def chunkSeparator : String := "\n\n---\n\n"

/-- `RAGService.formatContext(relevantDocs)` (ragService.js lines 167-179).
The argument is `Option`-valued because the JS function first tests
`!relevantDocs` (a `null`/`undefined` argument yields the sentinel). -/
def formatContext (relevantDocs : Option (List ScoredChunk)) : String :=
  match relevantDocs with
  | none => noContextSentinel
  | some docs =>
    if docs.length = 0 then noContextSentinel
    else
      String.intercalate chunkSeparator
        (docs.map fun dc =>
          "Source: " ++ jsStrOrElse dc.1.metadata.source "unknown" ++
            " (Relevance: " ++ toFixed3 dc.2 ++ ")\n" ++ dc.1.pageContent)

/-- JS `Set.prototype.add` on a set represented as its insertion-ordered
element list: appends the element unless already present. -/
def jsSetAdd (l : List String) (s : String) : List String :=
  if s ∈ l then l else l ++ [s]

/-- The loop body of `extractSources`:
`const source = doc.metadata?.source; if (source) sources.add(source)`. -/
def extractSourcesStep (sources : List String) (dc : ScoredChunk) : List String :=
  if jsTruthyStr dc.1.metadata.source then jsSetAdd sources (dc.1.metadata.source.getD "")
  else sources

/-- `RAGService.extractSources(relevantDocs)` (ragService.js lines 181-190):
walks the chunks in order, inserting each truthy `source` into a JS `Set`,
and returns the set as an insertion-ordered array. -/
def extractSources (relevantDocs : List ScoredChunk) : List String :=
  relevantDocs.foldl extractSourcesStep []

/-- The `relevanceScores` array built inline in `generateResponse`
(ragService.js lines 150-153): per chunk in result order, the source
(defaulted to `"unknown"`) paired with the score. -/
def relevanceScoresOf (relevantDocs : List ScoredChunk) : List (String × ℚ) :=
  relevantDocs.map fun dc => (jsStrOrElse dc.1.metadata.source "unknown", dc.2)

/-- The behaviour of a registered chat model: prompt in, completion out, or a
thrown error. -/
abbrev LLM := String → Except String String

/-- `LLMProviderService.getAvailableProviders()` (llmProvider.js): the
registered provider names, in registration order (JS `Map` keys iterate in
insertion order). The registry is its insertion-ordered entry list. -/
def getAvailableProviders (providers : List (String × LLM)) : List String :=
  providers.map Prod.fst

/-- `LLMProviderService.getProvider(providerName = config.llm.defaultProvider)`
(llmProvider.js lines 62-68). The JS default parameter replaces only an
`undefined` argument; a `null` argument (as passed by `RAGService`) is looked
up as the key `null` and fails. On a miss it throws an error naming the
requested provider and listing every registered provider name. -/
def getProvider (cfgDefault : String) (providers : List (String × LLM))
    (providerName : JSStr) : Except String LLM :=
  let name : JSStr := match providerName with
    | .undef => .str cfgDefault
    | other => other
  match (match name with | .str s => providers.lookup s | _ => none) with
  | some p => Except.ok p
  | none =>
      Except.error ("LLM provider '" ++ jsStrToDisplay name ++
        "' not available. Available providers: " ++
        String.intercalate ", " (getAvailableProviders providers))

/-- The text of `RAGService.systemPrompt` before the `context` placeholder. -/
def systemPromptPre : String :=
  "You are AI Chatbot specializing in OpenTelemetry (OTel) integration and implementation. \n" ++
  "Your role is to help developers understand and implement OpenTelemetry instrumentation in their applications.\n" ++
  "\n" ++
  "## Your application architecture is as follows:\n" ++
  "### Frontend\n" ++
  "Frontend (/client)\n" ++
  "Modern React application\n" ++
  "Real-time chat interface\n" ++
  "Provider selection component\n" ++
  "Message streaming support\n" ++
  "API service layer for backend communication\n" ++
  "\n" ++
  "#### Key Dependencies of Frontend\n" ++
  "The project is using modern JavaScript (ES6+) with JSX syntax\n" ++
  "Modern ES6+ module imports/exports\n" ++
  "react-router-dom (v6.20.1) for routing\n" ++
  "axios (v1.6.2) for HTTP requests\n" ++
  "react-markdown (v9.0.1) for markdown rendering\n" ++
  "react-syntax-highlighter (v15.5.0) for code highlighting\n" ++
  "react-icons (v4.12.0) for icon components\n" ++
  "OpenTelemetry related packages for web monitoring\n" ++
  "\n" ++
  "### Backend (/server)\n" ++
  "Express.js server with modular architecture\n" ++
  "Comprehensive middleware (auth, validation, rate limiting)\n" ++
  "Robust error handling and logging\n" ++
  "API routes for chat and admin functions\n" ++
  "Service layer for business logic\n" ++
  "\n" ++
  "#### Key Dependencies of Backend\n" ++
  "Node.js with Express.js framework\n" ++
  "Uses ES Modules (type: \"module\" in package.json)\n" ++
  "Modern JavaScript (ES6+) with async/await patterns\n" ++
  "Class-based architecture for server setup\n" ++
  "LangChain ecosystem (@langchain/core, @langchain/openai, etc.)\n" ++
  "ChromaDB for vector storage\n" ++
  "Express middleware (cors, helmet, rate-limit)\n" ++
  "Winston for logging\n" ++
  "Various AI provider SDKs (OpenAI, Anthropic, AWS)\n" ++
  "\n" ++
  "### Services\n" ++
  "llmProvider.js: Manages multiple AI provider integrations\n" ++
  "vectorStore.js: Handles ChromaDB interactions\n" ++
  "ragService.js: Implements RAG functionality\n" ++
  "Various middleware services for security and validation\n" ++
  "\n" ++
  "### Data Management\n" ++
  "Uses ChromaDB for vector storage\n" ++
  "Includes data ingestion scripts\n" ++
  "Supports custom documentation ingestion\n" ++
  "Pre-loaded with OpenTelemetry documentation\n" ++
  "\n" ++
  "## Context:\n" ++
  "You have access to comprehensive documentation about OpenTelemetry, including:\n" ++
  "- Installation and setup guides\n" ++
  "- Instrumentation examples for various frameworks and libraries\n" ++
  "- Best practices and configuration options\n" ++
  "- Troubleshooting guides\n" ++
  "- Code snippets and examples\n" ++
  "\n" ++
  "## Instructions:\n" ++
  "1. Provide accurate, practical, and actionable advice based on the provided context\n" ++
  "2. Include relevant code examples when appropriate\n" ++
  "3. Explain concepts clearly and concisely\n" ++
  "4. If the context doesn't contain enough information, acknowledge this and provide general guidance\n" ++
  "5. Focus on helping users implement OTel successfully in their specific use case\n" ++
  "6. Always prioritize official OpenTelemetry documentation and best practices\n" ++
  "\n" ++
  "Context information:\n"

/-- The text of `RAGService.systemPrompt` between the two placeholders. -/
def systemPromptMid : String :=
  "\n" ++
  "\n" ++
  "User question: "

/-- The text of `RAGService.systemPrompt` after the `question` placeholder. -/
def systemPromptPost : String :=
  "\n" ++
  "\n" ++
  "Provide a helpful, accurate response based on the context above. think deeply and verify as much as possible.:"

/-- `promptTemplate.invoke({context, question})`: the system prompt with the
`context` and `question` placeholders substituted. -/
def promptFill (context question : String) : String :=
  systemPromptPre ++ context ++ systemPromptMid ++ question ++ systemPromptPost

/-- The `context` object of a `generateResponse` result
(ragService.js lines 147-154). -/
structure ContextInfo where
  documentsUsed : Nat
  sources : List String
  relevanceScores : List (String × ℚ)
deriving DecidableEq

/-- The `metadata` object of a `generateResponse` result
(ragService.js lines 155-159). -/
structure RespMetadata where
  question : String
  provider : String
  timestamp : String
deriving DecidableEq

/-- The full payload returned by `generateResponse`
(ragService.js lines 145-159). -/
structure GenResult where
  response : String
  context : ContextInfo
  metadata : RespMetadata
deriving DecidableEq

/-- The `provider` metadata value `providerName || getAvailableProviders()[0]`
(ragService.js line 157): the requested name when truthy, otherwise the first
registered provider name (JS `[0]` on an empty array is `undefined`; that case
is unreachable on a success path, rendered here as `""`). -/
def metadataProviderOf (providerName : JSStr) (providers : List (String × LLM)) :
    String :=
  match providerName with
  | .str s => if s = "" then (getAvailableProviders providers).headD "" else s
  | _ => (getAvailableProviders providers).headD ""

/-- The outcome of `vectorStore.similaritySearchWithScore(question, k)`,
as a function of the two call arguments. -/
abbrev VectorStore := String → Nat → Except String (List ScoredChunk)

/-- `RAGService.generateResponse(question, providerName = null,
maxContextDocs = 5)` (ragService.js lines 88-165). Runtime order: the provider
is looked up first (line 111, before the chain is invoked), then the chain
runs the vector search, formats the context, fills the prompt template and
invokes the model; any step's thrown error is re-thrown unchanged (lines
161-164 log and `throw error`). -/
def generateResponse (store : VectorStore) (cfgDefault : String)
    (providers : List (String × LLM)) (now : String)
    (question : String) (providerName : JSStr) (maxContextDocs : Nat) :
    Except String GenResult :=
  match getProvider cfgDefault providers providerName with
  | Except.error e => Except.error e
  | Except.ok llm =>
    match store question maxContextDocs with
    | Except.error e => Except.error e
    | Except.ok relevantDocs =>
      match llm (promptFill (formatContext (some relevantDocs)) question) with
      | Except.error e => Except.error e
      | Except.ok llmResponse =>
        Except.ok
          { response := llmResponse
            context :=
              { documentsUsed := relevantDocs.length
                sources := extractSources relevantDocs
                relevanceScores := relevanceScoresOf relevantDocs }
            metadata :=
              { question := question
                provider := metadataProviderOf providerName providers
                timestamp := now } }

/-- A value returned by `askQuestion`: either the simplified shape built at
ragService.js lines 204-211 (`response`, top-level `sources`, reduced
`metadata`), or the full `generateResponse` payload passed through. -/
inductive AskResult where
  | simple (response : String) (sources : List String)
      (provider : String) (timestamp : String) : AskResult
  | full (result : GenResult) : AskResult
deriving DecidableEq

/-- `RAGService.askQuestion(question, options)` (ragService.js lines 192-219).
`provider` defaults to `null` (not `undefined`) by the destructuring at line
194; a caught error is re-thrown wrapped as
`Failed to generate response: <message>`. -/
def askQuestion (store : VectorStore) (cfgDefault : String)
    (providers : List (String × LLM)) (now : String)
    (question : String) (provider : JSStr) (maxContextDocs : Nat)
    (includeContext : Bool) : Except String AskResult :=
  match generateResponse store cfgDefault providers now question provider maxContextDocs with
  | Except.ok result =>
      if includeContext then Except.ok (AskResult.full result)
      else
        Except.ok (AskResult.simple result.response result.context.sources
          result.metadata.provider result.metadata.timestamp)
  | Except.error e => Except.error ("Failed to generate response: " ++ e)

/-- The `response` text carried by either `askQuestion` result shape. -/
def askResponseOf : AskResult → String
  | .simple response _ _ _ => response
  | .full result => result.response

/-- The payload of `RAGService.getContextForQuestion(question, maxDocs)`
(ragService.js lines 221-233). -/
structure ContextResult where
  context : String
  sources : List String
  documentCount : Nat
deriving DecidableEq

/-- `RAGService.getContextForQuestion(question, maxDocs = 5)`
(ragService.js lines 221-233): one vector search, then `formatContext` and
`extractSources`; a thrown error is re-thrown unchanged. -/
def getContextForQuestion (store : VectorStore) (question : String)
    (maxDocs : Nat) : Except String ContextResult :=
  match store question maxDocs with
  | Except.ok relevantDocs =>
      Except.ok
        { context := formatContext (some relevantDocs)
          sources := extractSources relevantDocs
          documentCount := relevantDocs.length }
  | Except.error e => Except.error e

/-- A JSON value, used to render the JavaScript object literals the service
returns, so that presence or absence of a field is a provable statement. -/
inductive Json where
  | str (s : String) : Json
  | num (q : ℚ) : Json
  | arr (items : List Json) : Json
  | obj (fields : List (String × Json)) : Json

/-- Look a key up in a JSON object (`none` on non-objects and absent keys). -/
def jsonGet (j : Json) (key : String) : Option Json :=
  match j with
  | .obj fields => fields.lookup key
  | _ => none

/-- The `generateResponse` payload as the JSON object literal of
ragService.js lines 145-159. -/
def jsonOfGenResult (g : GenResult) : Json :=
  Json.obj
    [("response", Json.str g.response),
     ("context", Json.obj
        [("documentsUsed", Json.num g.context.documentsUsed),
         ("sources", Json.arr (g.context.sources.map Json.str)),
         ("relevanceScores", Json.arr (g.context.relevanceScores.map fun p =>
            Json.obj [("source", Json.str p.1), ("score", Json.num p.2)]))]),
     ("metadata", Json.obj
        [("question", Json.str g.metadata.question),
         ("provider", Json.str g.metadata.provider),
         ("timestamp", Json.str g.metadata.timestamp)])]

/-- An `askQuestion` result as the JSON object it is returned as: the
simplified literal of ragService.js lines 204-211, or the full payload. -/
def jsonOfAskResult : AskResult → Json
  | .simple response sources provider timestamp =>
      Json.obj
        [("response", Json.str response),
         ("sources", Json.arr (sources.map Json.str)),
         ("metadata", Json.obj
            [("provider", Json.str provider),
             ("timestamp", Json.str timestamp)])]
  | .full result => jsonOfGenResult result

/-- `askQuestion`, with the returned object rendered as JSON. -/
def askQuestionJson (store : VectorStore) (cfgDefault : String)
    (providers : List (String × LLM)) (now : String)
    (question : String) (provider : JSStr) (maxContextDocs : Nat)
    (includeContext : Bool) : Except String Json :=
  (askQuestion store cfgDefault providers now question provider maxContextDocs
      includeContext).map jsonOfAskResult

/-! Specification-side definitions, written from the spec's words, against
which the code-side definitions are compared. -/

/-- The truthy (present and non-empty) `source` value of a chunk, if any. -/
def truthySourceOf (dc : ScoredChunk) : Option String :=
  match dc.1.metadata.source with
  | some s => if s = "" then none else some s
  | none => none

/-- The truthy source values of a chunk list, in chunk order. -/
def truthySources (docs : List ScoredChunk) : List String :=
  docs.filterMap truthySourceOf

/-- The spec's `ordered-distinct set`: each distinct value once, in order of
first appearance. -/
def distinctInOrder (l : List String) : List String :=
  l.foldl jsSetAdd []

/-- Per the spec, one chunk's block of the context string: a header line
showing source and relevance score to 3 decimal places, then the chunk's raw
content. -/
def chunkBlock (dc : ScoredChunk) : String :=
  "Source: " ++ jsStrOrElse dc.1.metadata.source "unknown" ++
    " (Relevance: " ++ toFixed3 dc.2 ++ ")\n" ++ dc.1.pageContent

/-! Shared sample data for concrete instances. -/

/-- The spec's scenario chunk `{content, metadata:{source:"otel-docs"}, score:0.87}`. -/
def sampleChunk : ScoredChunk :=
  (⟨"Use NodeSDK to start tracing.", ⟨some "otel-docs"⟩⟩, mkRat 87 100)

/-- A chunk whose `source` metadata field is missing. -/
def noSourceChunk : ScoredChunk := (⟨"chunk without source", ⟨none⟩⟩, mkRat 1 2)

/-- A chunk whose `source` metadata field is present but the empty string. -/
def emptySourceChunk : ScoredChunk := (⟨"chunk with empty source", ⟨some ""⟩⟩, mkRat 1 4)

/-- A deterministic chat-model behaviour used in concrete instances. -/
def sampleLLM : LLM := fun _ => Except.ok "Answer"

/-- A second registered provider behaviour. -/
def sampleLLM2 : LLM := fun _ => Except.ok "Answer2"

/-! Helper lemmas. -/

lemma mem_foldl_jsSetAdd (l : List String) (acc : List String) (s : String) :
    s ∈ List.foldl jsSetAdd acc l ↔ s ∈ acc ∨ s ∈ l := by
  induction l generalizing acc with
  | nil => simp
  | cons a t ih =>
    by_cases h : a ∈ acc
    · simp only [List.foldl_cons, jsSetAdd, if_pos h, ih, List.mem_cons]
      constructor
      · rintro (hs | hs)
        · exact Or.inl hs
        · exact Or.inr (Or.inr hs)
      · rintro (hs | hs | hs)
        · exact Or.inl hs
        · exact Or.inl (by rwa [hs])
        · exact Or.inr hs
    · simp only [List.foldl_cons, jsSetAdd, if_neg h, ih, List.mem_append,
        List.mem_cons, List.mem_singleton]
      tauto

lemma nodup_foldl_jsSetAdd (l : List String) (acc : List String)
    (h : acc.Nodup) : (List.foldl jsSetAdd acc l).Nodup := by
  induction l generalizing acc with
  | nil => simpa
  | cons a t ih =>
    simp only [List.foldl_cons]
    apply ih
    by_cases h' : a ∈ acc
    · simpa [jsSetAdd, h']
    · simp [jsSetAdd, h', List.nodup_append, h]

lemma extractSources_foldl (docs : List ScoredChunk) (acc : List String) :
    List.foldl extractSourcesStep acc docs
      = List.foldl jsSetAdd acc (truthySources docs) := by
  induction docs generalizing acc with
  | nil => rfl
  | cons dc t ih =>
    rcases hsrc : dc.1.metadata.source with _ | s
    · simp [truthySources, List.filterMap_cons, truthySourceOf, hsrc,
        extractSourcesStep, jsTruthyStr, ih, truthySources]
    · by_cases hs : s = "" <;>
        simp [truthySources, List.filterMap_cons, truthySourceOf, hsrc, hs,
          extractSourcesStep, jsTruthyStr, ih]

lemma extractSources_eq_distinctInOrder (docs : List ScoredChunk) :
    extractSources docs = distinctInOrder (truthySources docs) :=
  extractSources_foldl docs []

lemma truthySourceOf_eq_some (dc : ScoredChunk) (s : String) :
    truthySourceOf dc = some s ↔ dc.1.metadata.source = some s ∧ s ≠ "" := by
  rcases h : dc.1.metadata.source with _ | t
  · simp [truthySourceOf, h]
  · by_cases ht : t = "" <;> simp [truthySourceOf, h, ht, eq_comm]
    exact fun hts => by rw [← hts] at ht; exact ht

lemma mem_extractSources (docs : List ScoredChunk) (s : String) :
    s ∈ extractSources docs
      ↔ ∃ dc ∈ docs, dc.1.metadata.source = some s ∧ s ≠ "" := by
  rw [extractSources_eq_distinctInOrder, distinctInOrder, mem_foldl_jsSetAdd]
  simp [truthySources, List.mem_filterMap, truthySourceOf_eq_some]

/-! The claims. -/

/-- C1 (counterexample): as stated, the claim fails on a chunk whose `source`
metadata value is the empty string: the value is present and distinct, yet
`extractSources` (JS truthiness) drops it, so `sources` does not contain it. -/
theorem extractSources_misses_empty_source :
    ¬ (∀ (docs : List ScoredChunk) (s : String),
        (∃ dc ∈ docs, dc.1.metadata.source = some s) → s ∈ extractSources docs) := by
  intro h
  have := h [emptySourceChunk] ""
    ⟨emptySourceChunk, by simp, rfl⟩
  simp [extractSources, extractSourcesStep, emptySourceChunk, jsTruthyStr] at this

/-- C1 (amended): `sources` contains each distinct non-empty `source` value
exactly once, in order of first appearance across the chunks (it equals the
ordered-distinct sequence of the truthy source values), and contains no value
that is not the non-empty source of some retrieved chunk; chunks whose source
is missing or empty contribute nothing. -/
theorem extractSources_nodup_firstSeen (docs : List ScoredChunk) :
    (extractSources docs).Nodup
      ∧ extractSources docs = distinctInOrder (truthySources docs)
      ∧ (∀ s : String, s ∈ extractSources docs
          ↔ ∃ dc ∈ docs, dc.1.metadata.source = some s ∧ s ≠ "") :=
  ⟨extractSources_eq_distinctInOrder docs ▸
      nodup_foldl_jsSetAdd (truthySources docs) [] List.nodup_nil,
    extractSources_eq_distinctInOrder docs,
    fun s => mem_extractSources docs s⟩

/-- C2 (counterexample): for a retrieved chunk whose `source` is missing, the
`sources` array does not contain the literal `"unknown"` — the chunk is
skipped entirely (here `sources` is empty). -/
theorem missing_source_not_unknown_in_sources :
    extractSources [noSourceChunk] = []
      ∧ "unknown" ∉ extractSources [noSourceChunk] := by
  constructor <;> simp [extractSources, extractSourcesStep, noSourceChunk, jsTruthyStr]

/-- C2 (amended): a chunk whose `source` metadata field is missing contributes
no entry to `sources` (it is skipped by the truthiness test); the literal
`"unknown"` instead appears as that chunk's source in the `relevanceScores`
entry and in its `formatContext` header. -/
theorem missing_source_skipped_in_sources (d : Doc) (sc : ℚ)
    (rest : List ScoredChunk) (h : d.metadata.source = none) :
    extractSources ((d, sc) :: rest) = extractSources rest
      ∧ relevanceScoresOf ((d, sc) :: rest)
          = ("unknown", sc) :: relevanceScoresOf rest
      ∧ formatContext (some [(d, sc)])
          = "Source: unknown (Relevance: " ++ toFixed3 sc ++ ")\n" ++ d.pageContent := by
  refine ⟨?_, ?_, ?_⟩
  · simp [extractSources, extractSourcesStep, h, jsTruthyStr]
  · simp [relevanceScoresOf, jsStrOrElse, h, jsTruthyStr]
  · simp [formatContext, jsStrOrElse, h, jsTruthyStr, String.intercalate,
      String.intercalate.go]

/-- C2 (witness): the amended claim at a concrete chunk with missing source. -/
theorem missing_source_skipped_in_sources_witness :
    noSourceChunk.1.metadata.source = none
      ∧ (extractSources [noSourceChunk, sampleChunk] = extractSources [sampleChunk]
          ∧ relevanceScoresOf [noSourceChunk, sampleChunk]
              = ("unknown", mkRat 1 2) :: relevanceScoresOf [sampleChunk]
          ∧ formatContext (some [noSourceChunk])
              = "Source: unknown (Relevance: " ++ toFixed3 (mkRat 1 2) ++ ")\n"
                  ++ noSourceChunk.1.pageContent) :=
  ⟨rfl, missing_source_skipped_in_sources noSourceChunk.1 (mkRat 1 2) [sampleChunk] rfl⟩

/-- C10: `formatContext` is total over an absent chunk list: a `null` or
`undefined` argument yields the fixed sentinel, the same value as for an
empty list. -/
theorem formatContext_total_on_absent :
    formatContext none = "No relevant context found in the knowledge base."
      ∧ formatContext none = formatContext (some []) :=
  ⟨rfl, rfl⟩

/-- C6: for a non-empty chunk list, `formatContext` is per chunk in result
order the block of `chunkBlock` (header with source and score to 3 decimal
places, then the raw content), joined by the blank-line-delimited separator;
in the spec's one-chunk scenario the result is exactly the header with
`Relevance: 0.870` followed by the content, and `sources` is `["otel-docs"]`. -/
theorem formatContext_structure_and_scenario :
    (∀ docs : List ScoredChunk, docs ≠ [] →
        formatContext (some docs)
          = String.intercalate chunkSeparator (docs.map chunkBlock))
      ∧ formatContext (some [sampleChunk])
          = "Source: otel-docs (Relevance: 0.870)\nUse NodeSDK to start tracing."
      ∧ extractSources [sampleChunk] = ["otel-docs"] := by
  refine ⟨?_, by decide, by decide⟩
  intro docs hne
  simp only [formatContext]
  rw [if_neg (by simpa [List.length_eq_zero] using hne)]
  rfl

/-- C6 (witness): the structural equation at the scenario's one-chunk list. -/
theorem formatContext_structure_witness :
    ([sampleChunk] : List ScoredChunk) ≠ []
      ∧ formatContext (some [sampleChunk])
          = String.intercalate chunkSeparator ([sampleChunk].map chunkBlock) :=
  ⟨by decide, formatContext_structure_and_scenario.1 [sampleChunk] (by decide)⟩

/-- C5: when the vector search returns zero chunks, `formatContext` yields the
fixed sentinel and `askQuestion` still invokes the selected model on the
prompt built from that sentinel — the model's reply becomes the `response`,
for either value of `includeContext`, with no error. -/
theorem empty_retrieval_still_generates (store : VectorStore)
    (cfgDefault : String) (providers : List (String × LLM))
    (now question : String) (name : JSStr) (k : Nat) (llm : LLM) (resp : String)
    (hs : store question k = Except.ok [])
    (hp : getProvider cfgDefault providers name = Except.ok llm)
    (hr : llm (promptFill noContextSentinel question) = Except.ok resp) :
    formatContext (some []) = noContextSentinel
      ∧ ∀ includeContext : Bool,
          (askQuestion store cfgDefault providers now question name k
              includeContext).map askResponseOf
            = Except.ok resp := by
  refine ⟨rfl, fun ic => ?_⟩
  have hfc : formatContext (some ([] : List ScoredChunk)) = noContextSentinel := rfl
  cases ic <;>
    simp [askQuestion, generateResponse, hp, hs, hfc, hr, askResponseOf, Except.map]

/-- C5 (witness): a concrete empty store with a registered provider. -/
theorem empty_retrieval_still_generates_witness :
    ((fun _ _ => Except.ok []) : VectorStore) "anything" 5 = Except.ok []
      ∧ getProvider "openai" [("openai", sampleLLM)] (.str "openai")
          = Except.ok sampleLLM
      ∧ sampleLLM (promptFill noContextSentinel "anything") = Except.ok "Answer"
      ∧ (formatContext (some []) = noContextSentinel
          ∧ ∀ includeContext : Bool,
              (askQuestion (fun _ _ => Except.ok []) "openai"
                  [("openai", sampleLLM)] "2024-01-01T00:00:00.000Z" "anything"
                  (.str "openai") 5 includeContext).map askResponseOf
                = Except.ok "Answer") :=
  ⟨rfl, rfl, rfl,
    empty_retrieval_still_generates (fun _ _ => Except.ok []) "openai"
      [("openai", sampleLLM)] "2024-01-01T00:00:00.000Z" "anything"
      (.str "openai") 5 sampleLLM "Answer" rfl rfl rfl⟩

/-- C7: on a store that returns the same chunk list to both calls, successful
`askQuestion` and `getContextForQuestion` agree on `sources` and on the
`documentCount`/`documentsUsed` chunk count. -/
theorem getContext_matches_askQuestion_retrieval (store : VectorStore)
    (cfgDefault : String) (providers : List (String × LLM))
    (now question : String) (name : JSStr) (k : Nat) (llm : LLM)
    (resp : String) (docs : List ScoredChunk)
    (hs : store question k = Except.ok docs)
    (hp : getProvider cfgDefault providers name = Except.ok llm)
    (hr : llm (promptFill (formatContext (some docs)) question) = Except.ok resp) :
    ∃ c g, getContextForQuestion store question k = Except.ok c
      ∧ askQuestion store cfgDefault providers now question name k true
          = Except.ok (AskResult.full g)
      ∧ g.context.sources = c.sources
      ∧ g.context.documentsUsed = c.documentCount := by
  refine ⟨⟨formatContext (some docs), extractSources docs, docs.length⟩,
    ⟨resp, ⟨docs.length, extractSources docs, relevanceScoresOf docs⟩,
      ⟨question, metadataProviderOf name providers, now⟩⟩, ?_, ?_, rfl, rfl⟩
  · simp [getContextForQuestion, hs]
  · simp [askQuestion, generateResponse, hp, hs, hr]

/-- C7 (witness): concrete agreement of the two read paths. -/
theorem getContext_matches_askQuestion_retrieval_witness :
    ((fun _ _ => Except.ok [sampleChunk, noSourceChunk]) : VectorStore) "q" 5
        = Except.ok [sampleChunk, noSourceChunk]
      ∧ getProvider "openai" [("openai", sampleLLM)] (.str "openai")
          = Except.ok sampleLLM
      ∧ sampleLLM (promptFill (formatContext (some [sampleChunk, noSourceChunk])) "q")
          = Except.ok "Answer"
      ∧ ∃ c g, getContextForQuestion
            (fun _ _ => Except.ok [sampleChunk, noSourceChunk]) "q" 5
            = Except.ok c
          ∧ askQuestion (fun _ _ => Except.ok [sampleChunk, noSourceChunk]) "openai"
              [("openai", sampleLLM)] "2024-01-01T00:00:00.000Z" "q"
              (.str "openai") 5 true
              = Except.ok (AskResult.full g)
          ∧ g.context.sources = c.sources
          ∧ g.context.documentsUsed = c.documentCount :=
  ⟨rfl, rfl, rfl,
    getContext_matches_askQuestion_retrieval
      (fun _ _ => Except.ok [sampleChunk, noSourceChunk]) "openai"
      [("openai", sampleLLM)] "2024-01-01T00:00:00.000Z" "q" (.str "openai") 5
      sampleLLM "Answer" [sampleChunk, noSourceChunk] rfl rfl rfl⟩

/-- C8: `getProvider` on a name absent from the registry fails with a message
that names the request and enumerates every registered provider name; called
with the argument omitted (JS `undefined`) it returns the provider registered
under the configured default name. -/
theorem getProvider_miss_lists_available (cfgDefault : String)
    (providers : List (String × LLM)) (s : String) (p : LLM)
    (habs : providers.lookup s = none)
    (hdef : providers.lookup cfgDefault = some p) :
    getProvider cfgDefault providers (.str s)
        = Except.error ("LLM provider '" ++ s ++ "' not available. Available providers: "
            ++ String.intercalate ", " (getAvailableProviders providers))
      ∧ getProvider cfgDefault providers .undef = Except.ok p := by
  constructor <;> simp [getProvider, habs, hdef, jsStrToDisplay]

/-- C8 (witness): a two-provider registry, a missing name, and the default. -/
theorem getProvider_miss_lists_available_witness :
    ([("openai", sampleLLM), ("anthropic", sampleLLM2)].lookup "nonexistent-name"
        = (none : Option LLM))
      ∧ ([("openai", sampleLLM), ("anthropic", sampleLLM2)].lookup "openai"
          = some sampleLLM)
      ∧ (getProvider "openai" [("openai", sampleLLM), ("anthropic", sampleLLM2)]
            (.str "nonexistent-name")
          = Except.error ("LLM provider '" ++ "nonexistent-name"
              ++ "' not available. Available providers: "
              ++ String.intercalate ", "
                  (getAvailableProviders [("openai", sampleLLM), ("anthropic", sampleLLM2)]))
        ∧ getProvider "openai" [("openai", sampleLLM), ("anthropic", sampleLLM2)] .undef
            = Except.ok sampleLLM) :=
  ⟨rfl, rfl,
    getProvider_miss_lists_available "openai"
      [("openai", sampleLLM), ("anthropic", sampleLLM2)] "nonexistent-name"
      sampleLLM rfl rfl⟩

/-- C9 (counterexample): the error `askQuestion` surfaces for a retrieval
failure is not the underlying message itself — it is prefixed with
`Failed to generate response: `, so the message is reformulated. -/
theorem retrieval_failure_message_reformulated :
    askQuestion (fun _ _ => Except.error "ChromaDB connection failed") "openai"
        [("openai", sampleLLM)] "2024-01-01T00:00:00.000Z" "How do I start tracing?"
        (.str "openai") 5 false
      = Except.error "Failed to generate response: ChromaDB connection failed"
    ∧ ("Failed to generate response: ChromaDB connection failed" : String)
        ≠ "ChromaDB connection failed" := by
  exact ⟨rfl, by decide⟩

/-- C9 (amended): a vector-search failure during `askQuestion` terminates the
pipeline at once with no partial result — whatever the model behaviour, the
result is an error; `generateResponse` re-throws the underlying message
unchanged, and `askQuestion` surfaces it with the fixed prefix
`Failed to generate response: ` prepended. -/
theorem retrieval_failure_propagates_prefixed (store : VectorStore)
    (cfgDefault : String) (providers : List (String × LLM))
    (now question : String) (name : JSStr) (k : Nat) (llm : LLM) (msg : String)
    (hs : store question k = Except.error msg)
    (hp : getProvider cfgDefault providers name = Except.ok llm) :
    generateResponse store cfgDefault providers now question name k
        = Except.error msg
      ∧ ∀ includeContext : Bool,
          askQuestion store cfgDefault providers now question name k includeContext
            = Except.error ("Failed to generate response: " ++ msg) := by
  have hg : generateResponse store cfgDefault providers now question name k
      = Except.error msg := by
    simp [generateResponse, hp, hs]
  exact ⟨hg, fun ic => by simp [askQuestion, hg]⟩

/-- C9 (witness): a concrete failing store behind a registered provider. -/
theorem retrieval_failure_propagates_prefixed_witness :
    ((fun _ _ => Except.error "ECONNREFUSED") : VectorStore) "q" 5
        = Except.error "ECONNREFUSED"
      ∧ getProvider "openai" [("openai", sampleLLM)] (.str "openai")
          = Except.ok sampleLLM
      ∧ (generateResponse (fun _ _ => Except.error "ECONNREFUSED") "openai"
            [("openai", sampleLLM)] "2024-01-01T00:00:00.000Z" "q" (.str "openai") 5
            = Except.error "ECONNREFUSED"
        ∧ ∀ includeContext : Bool,
            askQuestion (fun _ _ => Except.error "ECONNREFUSED") "openai"
                [("openai", sampleLLM)] "2024-01-01T00:00:00.000Z" "q"
                (.str "openai") 5 includeContext
              = Except.error ("Failed to generate response: " ++ "ECONNREFUSED")) :=
  ⟨rfl, rfl,
    retrieval_failure_propagates_prefixed (fun _ _ => Except.error "ECONNREFUSED")
      "openai" [("openai", sampleLLM)] "2024-01-01T00:00:00.000Z" "q"
      (.str "openai") 5 sampleLLM "ECONNREFUSED" rfl rfl⟩

/-- C3 (counterexample): with `includeContext=true` the result's `context`
field is not the formatted context string: it is the nested object holding
`documentsUsed`, `sources` and `relevanceScores`. -/
theorem askQuestion_context_not_formatted_string :
    (askQuestionJson (fun _ _ => Except.ok [sampleChunk]) "openai"
        [("openai", sampleLLM)] "2024-01-01T00:00:00.000Z" "How do I start tracing?"
        (.str "openai") 5 true).map (fun j => jsonGet j "context")
      ≠ Except.ok (some (Json.str (formatContext (some [sampleChunk])))) := by
  intro h
  rw [show (askQuestionJson (fun _ _ => Except.ok [sampleChunk]) "openai"
        [("openai", sampleLLM)] "2024-01-01T00:00:00.000Z" "How do I start tracing?"
        (.str "openai") 5 true).map (fun j => jsonGet j "context")
      = Except.ok (some (Json.obj
          [("documentsUsed", Json.num ((1 : Nat) : ℚ)),
           ("sources", Json.arr [Json.str "otel-docs"]),
           ("relevanceScores", Json.arr
              [Json.obj [("source", Json.str "otel-docs"),
                         ("score", Json.num (mkRat 87 100))]])])) from rfl] at h
  exact Json.noConfusion (Option.some.inj (Except.ok.inj h))

/-- C3 (amended): with `includeContext=true` a successful `askQuestion` result
carries a `context` field holding the nested object with the `documentsUsed`
count, the `sources` list and the per-chunk `relevanceScores` pairs in
search-result order — not the formatted context string, which is absent from
the result; with `includeContext=false` the result has no `context` and no
`relevanceScores` field. -/
theorem askQuestion_context_field_shape (store : VectorStore)
    (cfgDefault : String) (providers : List (String × LLM))
    (now question : String) (name : JSStr) (k : Nat) (llm : LLM)
    (resp : String) (docs : List ScoredChunk)
    (hs : store question k = Except.ok docs)
    (hp : getProvider cfgDefault providers name = Except.ok llm)
    (hr : llm (promptFill (formatContext (some docs)) question) = Except.ok resp) :
    (askQuestionJson store cfgDefault providers now question name k true).map
        (fun j => jsonGet j "context")
      = Except.ok (some (Json.obj
          [("documentsUsed", Json.num docs.length),
           ("sources", Json.arr ((extractSources docs).map Json.str)),
           ("relevanceScores", Json.arr ((relevanceScoresOf docs).map fun p =>
              Json.obj [("source", Json.str p.1), ("score", Json.num p.2)]))]))
    ∧ (askQuestionJson store cfgDefault providers now question name k false).map
          (fun j => jsonGet j "context")
        = Except.ok none
    ∧ (askQuestionJson store cfgDefault providers now question name k false).map
          (fun j => jsonGet j "relevanceScores")
        = Except.ok none := by
  refine ⟨?_, ?_, ?_⟩ <;>
    · simp only [askQuestionJson, askQuestion, generateResponse, hp, hs, hr]
      rfl

/-- C3 (witness): the amended field shape at a concrete one-chunk store. -/
theorem askQuestion_context_field_shape_witness :
    ((fun _ _ => Except.ok [sampleChunk]) : VectorStore) "q" 5
        = Except.ok [sampleChunk]
      ∧ getProvider "openai" [("openai", sampleLLM)] (.str "openai")
          = Except.ok sampleLLM
      ∧ sampleLLM (promptFill (formatContext (some [sampleChunk])) "q")
          = Except.ok "Answer"
      ∧ ((askQuestionJson (fun _ _ => Except.ok [sampleChunk]) "openai"
            [("openai", sampleLLM)] "2024-01-01T00:00:00.000Z" "q"
            (.str "openai") 5 true).map (fun j => jsonGet j "context")
          = Except.ok (some (Json.obj
              [("documentsUsed", Json.num ([sampleChunk].length)),
               ("sources", Json.arr ((extractSources [sampleChunk]).map Json.str)),
               ("relevanceScores", Json.arr ((relevanceScoresOf [sampleChunk]).map fun p =>
                  Json.obj [("source", Json.str p.1), ("score", Json.num p.2)]))]))
        ∧ (askQuestionJson (fun _ _ => Except.ok [sampleChunk]) "openai"
              [("openai", sampleLLM)] "2024-01-01T00:00:00.000Z" "q"
              (.str "openai") 5 false).map (fun j => jsonGet j "context")
            = Except.ok none
        ∧ (askQuestionJson (fun _ _ => Except.ok [sampleChunk]) "openai"
              [("openai", sampleLLM)] "2024-01-01T00:00:00.000Z" "q"
              (.str "openai") 5 false).map (fun j => jsonGet j "relevanceScores")
            = Except.ok none) :=
  ⟨rfl, rfl, rfl,
    askQuestion_context_field_shape (fun _ _ => Except.ok [sampleChunk]) "openai"
      [("openai", sampleLLM)] "2024-01-01T00:00:00.000Z" "q" (.str "openai") 5
      sampleLLM "Answer" [sampleChunk] rfl rfl rfl⟩

/-- C4 (code bug): with the provider name omitted, `askQuestion` always
throws. The destructuring default sets `provider` to `null`, `generateResponse`
passes it through, and `getProvider`'s default parameter fires only on
`undefined` — so the lookup uses the key `null` and fails even though the
configured default provider is registered. -/
theorem askQuestion_default_provider_throws :
    ([("openai", sampleLLM), ("anthropic", sampleLLM2)].lookup "openai"
        = some sampleLLM)
      ∧ askQuestion (fun _ _ => Except.ok [sampleChunk]) "openai"
          [("openai", sampleLLM), ("anthropic", sampleLLM2)]
          "2024-01-01T00:00:00.000Z" "How do I start tracing?" JSStr.null 5 false
        = Except.error ("Failed to generate response: "
            ++ "LLM provider 'null' not available. Available providers: openai, anthropic") :=
  ⟨rfl, rfl⟩

end AIWorkshop
